import Mathlib

/-!
Shallow embedding of the server core of `rust-tcp-chat` (src/client_handler.rs,
src/errors.rs, with the envelope type as used by src/client.rs and
src/client_handler.rs).  Connection identities (`SocketAddr`) are modelled as
naturals; the two shared `HashMap`s and the history `Vec` are modelled as lists
inside an explicit `ServerState`; every fallible I/O attempt (a `write_all` or a
`try_clone`) consumes one entry of a boolean oracle (an empty oracle means the
attempt succeeds); `RwLock` poisoning is modelled by one boolean flag per lock.
Observable actions (registrations, name insertions, successful writes, history
appends, removals) are recorded in an event trace so that ordering claims can be
stated.
-/

namespace Chat

/-- A connection identity: the transport-level peer address. -/
abbrev Addr := Nat

/-- `CommandType` as used by src/client.rs and src/client_handler.rs. -/
inductive CommandType where
  | List
  | Quit
deriving DecidableEq, Repr

/-- `ChatMessageType`: the closed variant set used by src/client.rs (whose
display `match` is exhaustive over exactly these constructors) and by
src/client_handler.rs. -/
inductive ChatMessageType where
  | Message
  | Join
  | Leave
  | Command (c : CommandType)
deriving DecidableEq, Repr

/-- `ChatMessage` from src/message.rs: the wire envelope. -/
structure ChatMessage where
  message_type : ChatMessageType
  username : Option String
  content : String
deriving DecidableEq, Repr

/-- `ChatServerError` from src/errors.rs, together with the
`InvalidMessage` and `MissingUsername` variants that src/client_handler.rs
constructs (they are used by the handler source even though the copy of
errors.rs in the snapshot predates them). -/
inductive ChatServerError where
  | IoError
  | JsonError
  | ClientDisconnected (peer : String)
  | InvalidMessage (peer : String)
  | MissingUsername (peer : String)
  | PoisonedLock
deriving DecidableEq, Repr

/-- An observable action of the server: used to state ordering properties. -/
inductive Event where
  | registered (addr : Addr)
  | setName (addr : Addr) (name : String)
  | wrote (addr : Addr) (msg : ChatMessage)
  | appended (msg : ChatMessage)
  | unregistered (addr : Addr)
  | unnamed (addr : Addr)
deriving DecidableEq, Repr

/-- The shared server state: the `clients` map (modelled by its key list in
iteration order), the `usernames` map (association list), the chat history
vector, plus the instrumentation (event trace), the I/O oracle and the three
lock-poison flags. -/
structure ServerState where
  clients : List Addr
  usernames : List (Addr × String)
  chat_history : List ChatMessage
  events : List Event
  oracle : List Bool
  clientsPoisoned : Bool
  usernamesPoisoned : Bool
  historyPoisoned : Bool
deriving DecidableEq, Repr

/-- Consume one I/O-outcome from the oracle; an exhausted oracle means the
attempt succeeds. -/
def popOracle (st : ServerState) : Bool × ServerState :=
  match st.oracle with
  | [] => (true, st)
  | b :: rest => (b, { st with oracle := rest })

/-- The outcome of a handler operation: `ok`/`err` mirror `ChatResult`,
`panicked` models a Rust panic (an `unwrap()` on a poisoned lock). -/
inductive Outcome (α : Type) where
  | ok (a : α) (st : ServerState)
  | err (e : ChatServerError) (st : ServerState)
  | panicked (st : ServerState)
deriving Repr, DecidableEq

/-- The state carried by an outcome, whichever constructor it is. -/
def Outcome.state : Outcome α → ServerState
  | .ok _ st => st
  | .err _ st => st
  | .panicked st => st

/-- `HashMap::insert` on the clients map, viewed on the key list: a fresh key
is appended, an existing key keeps its position (only its stream is replaced). -/
def insertClient (cs : List Addr) (a : Addr) : List Addr :=
  if a ∈ cs then cs else cs ++ [a]

/-- `HashMap::insert` on the usernames map as an association-list update. -/
def insertUsername : List (Addr × String) → Addr → String → List (Addr × String)
  | [], a, n => [(a, n)]
  | (b, m) :: rest, a, n =>
    if b = a then (a, n) :: rest else (b, m) :: insertUsername rest a n

/-- `register_client` (client_handler.rs:49): take the clients write lock and
insert the peer under a clone of its stream; the `try_clone` is the one
fallible step and consumes an oracle entry. -/
def register_client (st : ServerState) (peer_addr : Addr) : Outcome Unit :=
  if st.clientsPoisoned then .err .PoisonedLock st
  else
    let (cloneOk, st1) := popOracle st
    if cloneOk then
      .ok () { st1 with clients := insertClient st1.clients peer_addr,
                        events := st1.events ++ [.registered peer_addr] }
    else .err .IoError st1

/-- The first read of a connection, or one iteration's read in the message
loop: the connection closed (`Ok(0)`), a read error (`Err`), or a line whose
JSON parse result is `none` (unparseable) or `some` envelope. -/
inductive ReadEvent where
  | closed
  | rerr
  | line (m : Option ChatMessage)
deriving DecidableEq, Repr

/-- `get_client_username` (client_handler.rs:61): a failed or empty read is
`ClientDisconnected`, an unparseable line is `InvalidMessage`, a parsed
envelope without a username field is `MissingUsername`; otherwise the embedded
username is returned with no further validation. -/
def get_client_username (firstRead : ReadEvent) (peer_addr : Addr) :
    Except ChatServerError String :=
  match firstRead with
  | .closed => .error (.ClientDisconnected (toString peer_addr))
  | .rerr => .error (.ClientDisconnected (toString peer_addr))
  | .line none => .error (.InvalidMessage (toString peer_addr))
  | .line (some chat_message) =>
    match chat_message.username with
    | none => .error (.MissingUsername (toString peer_addr))
    | some u => .ok u

/-- `send_message_to_client` (client_handler.rs:298): serialize (total for this
type) and write one line; the write consumes an oracle entry and fails with an
`IoError`. -/
def send_message_to_client (st : ServerState) (self : Addr) (message : ChatMessage) :
    Outcome Unit :=
  let (w, st1) := popOracle st
  if w then .ok () { st1 with events := st1.events ++ [.wrote self message] }
  else .err .IoError st1

/-- The iteration of `send_chat_history` over the locked history vector. -/
def replayLoop (self : Addr) : ServerState → List ChatMessage → Outcome Unit
  | st, [] => .ok () st
  | st, m :: rest =>
    match send_message_to_client st self m with
    | .ok _ st1 => replayLoop self st1 rest
    | .err e st1 => .err e st1
    | .panicked st1 => .panicked st1

/-- `send_chat_history` (client_handler.rs:77): take the history read lock
(with `?`, so poisoning is a `PoisonedLock` error) and send every entry in
order, aborting on the first failed write. -/
def send_chat_history (st : ServerState) (self : Addr) : Outcome Unit :=
  if st.historyPoisoned then .err .PoisonedLock st
  else replayLoop self st st.chat_history

/-- The fan-out pass of `broadcast_message` (client_handler.rs:329-342): walk
the clients snapshot; skip the sender by address equality; for every other
entry attempt the delivery (`try_clone` + `write_all`, merged into one oracle
consultation since either failure has the same effect) and collect the
addresses whose delivery failed. -/
def fanoutLoop (sender : Addr) (message : ChatMessage) :
    ServerState → List Addr → ServerState × List Addr
  | st, [] => (st, [])
  | st, addr :: rest =>
    if addr = sender then fanoutLoop sender message st rest
    else
      let (w, st1) := popOracle st
      if w then
        let st2 := { st1 with events := st1.events ++ [.wrote addr message] }
        fanoutLoop sender message st2 rest
      else
        let (st3, failed) := fanoutLoop sender message st1 rest
        (st3, addr :: failed)

/-- `broadcast_message` (client_handler.rs:310): push the message onto the
history (the history write lock is taken with `.unwrap()`, so poisoning
panics), fan out to every non-sender client under the clients read lock (also
`.unwrap()`), then — only after the pass completes and only if some delivery
failed — take the clients write lock (again `.unwrap()`) and remove every
failed address. -/
def broadcast_message (st : ServerState) (sender : Addr) (message : ChatMessage) :
    Outcome Unit :=
  if st.historyPoisoned then .panicked st
  else
    let st1 := { st with chat_history := st.chat_history ++ [message],
                         events := st.events ++ [.appended message] }
    if st1.clientsPoisoned then .panicked st1
    else
      let (st2, failed) := fanoutLoop sender message st1 st1.clients
      if failed.isEmpty then .ok () st2
      else if st2.clientsPoisoned then .panicked st2
      else
        .ok () { st2 with
          clients := st2.clients.filter (fun a => !(failed.contains a)),
          events := st2.events ++ failed.map Event.unregistered }

/-- `broadcast_system_message` (client_handler.rs:115): build the envelope with
the given kind, sender name and content, broadcast it, and return it. -/
def broadcast_system_message (st : ServerState) (sender : Addr) (username : String)
    (message_type : ChatMessageType) (content : String) : Outcome ChatMessage :=
  let msg : ChatMessage := ⟨message_type, some username, content⟩
  match broadcast_message st sender msg with
  | .ok _ st1 => .ok msg st1
  | .err e st1 => .err e st1
  | .panicked st1 => .panicked st1

/-- `broadcast_join_message` (client_handler.rs:89): insert the username under
the usernames write lock (taken with `?`), then broadcast the `Join` system
message `"<name> has joined the chat"`. -/
def broadcast_join_message (st : ServerState) (peer_addr : Addr) (username : String) :
    Outcome Unit :=
  if st.usernamesPoisoned then .err .PoisonedLock st
  else
    let st1 := { st with usernames := insertUsername st.usernames peer_addr username,
                         events := st.events ++ [.setName peer_addr username] }
    match broadcast_system_message st1 peer_addr username ChatMessageType.Join
        (username ++ " has joined the chat") with
    | .ok _ st2 => .ok () st2
    | .err e st2 => .err e st2
    | .panicked st2 => .panicked st2

/-- `send_user_list` (client_handler.rs:211): snapshot the usernames under the
read lock (taken with `?`), build the `Command::List` response with no sender
and the roster body, and write it back to the requesting client only. -/
def send_user_list (st : ServerState) (self : Addr) : Outcome Unit :=
  if st.usernamesPoisoned then .err .PoisonedLock st
  else
    let users := st.usernames.map Prod.snd
    let list_msg : ChatMessage :=
      ⟨.Command .List, none,
        if users.isEmpty then "No users online."
        else "Online users: " ++ String.intercalate ", " users⟩
    send_message_to_client st self list_msg

/-- `handle_client_disconnect` (client_handler.rs:248): broadcast a system
message of the triggering envelope's own kind with body
`"<name> has left the chat"`, write that same envelope back to the departing
connection, then remove the client from both maps (write locks taken with `?`). -/
def handle_client_disconnect (st : ServerState) (peer_addr : Addr) (username : String)
    (message_type : ChatMessageType) : Outcome Unit :=
  match broadcast_system_message st peer_addr username message_type
      (username ++ " has left the chat") with
  | .ok leave_msg st1 =>
    match send_message_to_client st1 peer_addr leave_msg with
    | .ok _ st2 =>
      if st2.clientsPoisoned then .err .PoisonedLock st2
      else
        let st3 := { st2 with clients := st2.clients.filter (fun a => a != peer_addr),
                              events := st2.events ++ [Event.unregistered peer_addr] }
        if st3.usernamesPoisoned then .err .PoisonedLock st3
        else .ok () { st3 with
          usernames := st3.usernames.filter (fun p => p.1 != peer_addr),
          events := st3.events ++ [Event.unnamed peer_addr] }
    | .err e st2 => .err e st2
    | .panicked st2 => .panicked st2
  | .err e st1 => .err e st1
  | .panicked st1 => .panicked st1

/-- `handle_parsed_message` (client_handler.rs:168): an ordinary `Message` is
re-wrapped with the session's own username as sender (the inbound username
field is discarded) and broadcast; `/list` answers the requester; `/quit` or a
client-sent `Leave` runs the disconnect routine with the envelope's own kind;
anything else (`Join`) is logged and ignored. -/
def handle_parsed_message (st : ServerState) (peer_addr : Addr) (username : String)
    (chat_msg : ChatMessage) : Outcome Unit :=
  match chat_msg.message_type with
  | .Message =>
    let msg : ChatMessage := ⟨.Message, some username, chat_msg.content⟩
    broadcast_message st peer_addr msg
  | .Command .List => send_user_list st peer_addr
  | .Command .Quit =>
    handle_client_disconnect st peer_addr username (ChatMessageType.Command .Quit)
  | .Leave => handle_client_disconnect st peer_addr username ChatMessageType.Leave
  | .Join => .ok () st

/-- `handle_client_messages` (client_handler.rs:133): the read loop. `Ok(0)`
and read errors break out with `Ok(())`; an unparseable line is logged and the
loop continues; a parsed envelope is dispatched, a dispatch error propagating
out of the loop. The input list is the sequence of reads the connection
delivers; an exhausted list is a connection that never speaks again. -/
def handle_client_messages (peer_addr : Addr) (username : String) :
    ServerState → List ReadEvent → Outcome Unit
  | st, [] => .ok () st
  | st, .closed :: _ => .ok () st
  | st, .rerr :: _ => .ok () st
  | st, .line none :: rest => handle_client_messages peer_addr username st rest
  | st, .line (some chat_msg) :: rest =>
    match handle_parsed_message st peer_addr username chat_msg with
    | .ok _ st1 => handle_client_messages peer_addr username st1 rest
    | .err e st1 => .err e st1
    | .panicked st1 => .panicked st1

/-- `cleanup_client` (client_handler.rs:283): remove the client from both maps,
each write lock taken with `.ok().map(..)`, so a poisoned lock silently skips
that removal. -/
def cleanup_client (st : ServerState) (peer_addr : Addr) : ServerState :=
  let st1 :=
    if st.clientsPoisoned then st
    else { st with clients := st.clients.filter (fun a => a != peer_addr),
                   events := st.events ++ [.unregistered peer_addr] }
  if st1.usernamesPoisoned then st1
  else { st1 with usernames := st1.usernames.filter (fun p => p.1 != peer_addr),
                  events := st1.events ++ [.unnamed peer_addr] }

/-- `handle_client` (client_handler.rs:11): register the accepted connection,
read and extract the username, replay the history, insert the name and
broadcast the `Join`, run the message loop, and clean up — every fallible step
chained with `?`, so an error on any step returns at once and skips the rest
(including the cleanup). -/
def handle_client (st : ServerState) (peer_addr : Addr)
    (firstRead : ReadEvent) (inputs : List ReadEvent) : Outcome Unit :=
  match register_client st peer_addr with
  | .ok _ st1 =>
    match get_client_username firstRead peer_addr with
    | .error e => .err e st1
    | .ok username =>
      match send_chat_history st1 peer_addr with
      | .ok _ st2 =>
        match broadcast_join_message st2 peer_addr username with
        | .ok _ st3 =>
          match handle_client_messages peer_addr username st3 inputs with
          | .ok _ st4 => .ok () (cleanup_client st4 peer_addr)
          | .err e st4 => .err e st4
          | .panicked st4 => .panicked st4
        | .err e st3 => .err e st3
        | .panicked st3 => .panicked st3
      | .err e st2 => .err e st2
      | .panicked st2 => .panicked st2
  | .err e st1 => .err e st1
  | .panicked st1 => .panicked st1

/-- The messages successfully written to a given connection, in write order,
read off the event trace. -/
def wroteTo (evs : List Event) (a : Addr) : List ChatMessage :=
  evs.filterMap fun e =>
    match e with
    | .wrote b m => if b = a then some m else none
    | _ => none

/-- A healthy state: no lock is poisoned. -/
def ServerState.healthy (st : ServerState) : Prop :=
  st.clientsPoisoned = false ∧ st.usernamesPoisoned = false ∧ st.historyPoisoned = false

/-- Whether an operation finished without error and without panic. -/
def Outcome.isOk : Outcome α → Bool
  | .ok _ _ => true
  | _ => false

/-- Head of the oracle (an exhausted oracle yields success). -/
def oHead : List Bool → Bool
  | [] => true
  | b :: _ => b

/-- Tail of the oracle. -/
def oTail : List Bool → List Bool
  | [] => []
  | _ :: t => t

/-- The successful-delivery events produced by one fan-out pass, as a pure
function of the oracle and the clients snapshot. -/
def fanoutWrites (sender : Addr) (message : ChatMessage) :
    List Bool → List Addr → List Event
  | _, [] => []
  | o, a :: cs =>
    if a = sender then fanoutWrites sender message o cs
    else if oHead o then Event.wrote a message :: fanoutWrites sender message (oTail o) cs
    else fanoutWrites sender message (oTail o) cs

/-- The failed addresses collected by one fan-out pass. -/
def fanoutFailed (sender : Addr) : List Bool → List Addr → List Addr
  | _, [] => []
  | o, a :: cs =>
    if a = sender then fanoutFailed sender o cs
    else if oHead o then fanoutFailed sender (oTail o) cs
    else a :: fanoutFailed sender (oTail o) cs

/-- The oracle left over after one fan-out pass. -/
def fanoutRest (sender : Addr) : List Bool → List Addr → List Bool
  | o, [] => o
  | o, a :: cs =>
    if a = sender then fanoutRest sender o cs
    else fanoutRest sender (oTail o) cs

/-- The fan-out of `broadcast_message` from src/server.rs:165 (the earlier
revision of the engine): write to every non-sender client; a failed write
panics (`unwrap`) at once, with no pruning. -/
def serverFanout (sender : Addr) (message : ChatMessage) :
    ServerState → List Addr → Outcome Unit
  | st, [] => .ok () st
  | st, a :: rest =>
    if a = sender then serverFanout sender message st rest
    else
      let (w, st1) := popOracle st
      if w then
        serverFanout sender message
          { st1 with events := st1.events ++ [Event.wrote a message] } rest
      else .panicked st1

/-- `broadcast_message` from src/server.rs:165: serialize once, lock the
clients mutex (`lock().unwrap()`, so poisoning panics) and write to every
client whose address differs from the sender. -/
def server_broadcast_message (st : ServerState) (sender : Addr) (message : ChatMessage) :
    Outcome Unit :=
  if st.clientsPoisoned then .panicked st
  else serverFanout sender message st st.clients

/-- An empty healthy server state. -/
def base0 : ServerState := ⟨[], [], [], [], [], false, false, false⟩

/-- A state with one registered session "bob" (address 2) and one old history
entry. -/
def stJoined : ServerState :=
  ⟨[2], [(2, "bob")], [⟨.Message, some "bob", "old"⟩], [], [], false, false, false⟩

/-- Three sessions; the oracle makes the first delivery attempt fail and the
second succeed. -/
def stFanout : ServerState :=
  ⟨[1, 2, 3], [(1, "alice"), (2, "bob"), (3, "carol")], [], [], [false, true],
   false, false, false⟩

/-- Two sessions named "alice" then "bob". -/
def stTwoNames : ServerState :=
  ⟨[1, 2], [(1, "alice"), (2, "bob")], [], [], [], false, false, false⟩

/-- Two distinct sessions sharing one display name. -/
def stSharedName : ServerState :=
  ⟨[1, 2], [(1, "dup"), (2, "dup")], [], [], [], false, false, false⟩

/-- One peer plus a two-entry history; the oracle lets the registration clone
and the first replay write succeed and makes the second replay write fail. -/
def stReplayFail : ServerState :=
  ⟨[2], [(2, "bob")], [⟨.Message, some "bob", "m1"⟩, ⟨.Message, some "bob", "m2"⟩],
   [], [true, true, false], false, false, false⟩

/-- A state whose three locks are all poisoned. -/
def stPoisoned : ServerState := ⟨[1], [(1, "alice")], [], [], [], true, true, true⟩

/-- A state whose history lock (only) is poisoned. -/
def stPoisonedHistory : ServerState :=
  ⟨[1], [(1, "alice")], [], [], [], false, false, true⟩

/-- The state right after `register_client` succeeds. -/
def afterRegister (st : ServerState) (p : Addr) : ServerState :=
  { st with clients := insertClient st.clients p,
            events := st.events ++ [Event.registered p] }

/-- The state right after `register_client` succeeds when the oracle explicitly
granted the `try_clone`. -/
def afterRegisterPop (st : ServerState) (p : Addr) : ServerState :=
  { st with clients := insertClient st.clients p,
            events := st.events ++ [Event.registered p],
            oracle := oTail st.oracle }

/-- The state after a fully successful history replay to `self`. -/
def afterReplay (st : ServerState) (self : Addr) : ServerState :=
  { st with events := st.events ++ st.chat_history.map (fun m => Event.wrote self m) }

/-- The state after a fully successful broadcast of `message` from `sender`. -/
def afterBroadcast (st : ServerState) (sender : Addr) (message : ChatMessage) :
    ServerState :=
  { st with
    chat_history := st.chat_history ++ [message],
    events := st.events ++ Event.appended message ::
      (st.clients.filter (fun a => a != sender)).map (fun a => Event.wrote a message) }

/-- The state after `broadcast_join_message` fully succeeds: the name is
inserted first, then the `Join` envelope is broadcast. -/
def afterJoin (st : ServerState) (p : Addr) (u : String) : ServerState :=
  afterBroadcast
    { st with usernames := insertUsername st.usernames p u,
              events := st.events ++ [Event.setName p u] }
    p ⟨.Join, some u, u ++ " has joined the chat"⟩

/-- The state after a fully successful disconnect routine for `p` named `u`
triggered by an envelope of kind `mt`. -/
def afterDisconnect (st : ServerState) (p : Addr) (u : String)
    (mt : ChatMessageType) : ServerState :=
  { st with
    clients := st.clients.filter (fun a => a != p),
    usernames := st.usernames.filter (fun q => q.1 != p),
    chat_history := st.chat_history ++ [⟨mt, some u, u ++ " has left the chat"⟩],
    events := st.events ++
      Event.appended ⟨mt, some u, u ++ " has left the chat"⟩ ::
      ((st.clients.filter (fun a => a != p)).map
          (fun a => Event.wrote a ⟨mt, some u, u ++ " has left the chat"⟩) ++
        [Event.wrote p ⟨mt, some u, u ++ " has left the chat"⟩,
         Event.unregistered p, Event.unnamed p]) }

theorem popOracle_eq (st : ServerState) :
    popOracle st = (oHead st.oracle, { st with oracle := oTail st.oracle }) := by
  obtain ⟨cs, us, h, evs, o, a, b, c⟩ := st
  cases o <;> rfl

theorem fanoutLoop_eq (sender : Addr) (m : ChatMessage) :
    ∀ (cs : List Addr) (st : ServerState),
    fanoutLoop sender m st cs =
      ({ st with events := st.events ++ fanoutWrites sender m st.oracle cs,
                 oracle := fanoutRest sender st.oracle cs },
       fanoutFailed sender st.oracle cs) := by
  intro cs
  induction cs with
  | nil => intro st; simp [fanoutLoop, fanoutWrites, fanoutFailed, fanoutRest]
  | cons a rest ih =>
    intro st
    by_cases ha : a = sender
    · simp [fanoutLoop, fanoutWrites, fanoutFailed, fanoutRest, ha, ih]
    · by_cases hw : oHead st.oracle = true
      · simp only [fanoutLoop, popOracle_eq, ha, if_false, hw, if_true, ih,
          fanoutWrites, fanoutFailed, fanoutRest]
        simp [ha, hw, List.append_assoc]
      · simp only [Bool.not_eq_true] at hw
        simp only [fanoutLoop, popOracle_eq, ha, if_false, hw, ih,
          fanoutWrites, fanoutFailed, fanoutRest]
        simp [ha, hw]

/-- With an exhausted oracle every delivery succeeds. -/
theorem fanoutWrites_nil (sender : Addr) (m : ChatMessage) :
    ∀ cs : List Addr,
    fanoutWrites sender m [] cs =
      (cs.filter (fun a => a != sender)).map (fun a => Event.wrote a m) := by
  intro cs
  induction cs with
  | nil => rfl
  | cons a rest ih =>
    by_cases ha : a = sender <;>
      simp [fanoutWrites, oHead, oTail, ha, ih, List.filter_cons, bne_iff_ne]

theorem fanoutFailed_nil (sender : Addr) :
    ∀ cs : List Addr, fanoutFailed sender [] cs = [] := by
  intro cs
  induction cs with
  | nil => rfl
  | cons a rest ih => by_cases ha : a = sender <;> simp [fanoutFailed, oHead, oTail, ha, ih]

theorem fanoutRest_nil (sender : Addr) :
    ∀ cs : List Addr, fanoutRest sender [] cs = [] := by
  intro cs
  induction cs with
  | nil => rfl
  | cons a rest ih => by_cases ha : a = sender <;> simp [fanoutRest, oTail, ha, ih]

/-- Every fan-out write goes to a non-sender member of the snapshot. -/
theorem fanoutWrites_mem (sender : Addr) (m : ChatMessage) :
    ∀ (cs : List Addr) (o : List Bool) (e : Event), e ∈ fanoutWrites sender m o cs →
      ∃ x, x ∈ cs ∧ x ≠ sender ∧ e = Event.wrote x m := by
  intro cs
  induction cs with
  | nil => intro o e he; simp [fanoutWrites] at he
  | cons a rest ih =>
    intro o e he
    by_cases ha : a = sender
    · simp only [fanoutWrites, ha, if_true] at he
      obtain ⟨x, hx, hxs, hxe⟩ := ih o e he
      exact ⟨x, List.mem_cons_of_mem _ hx, hxs, hxe⟩
    · simp only [fanoutWrites, ha, if_false] at he
      by_cases hw : oHead o = true
      · simp only [hw, if_true, List.mem_cons] at he
        rcases he with he | he
        · exact ⟨a, List.mem_cons_self _ _, ha, he⟩
        · obtain ⟨x, hx, hxs, hxe⟩ := ih (oTail o) e he
          exact ⟨x, List.mem_cons_of_mem _ hx, hxs, hxe⟩
      · simp only [Bool.not_eq_true] at hw
        simp only [hw, Bool.false_eq_true, if_false] at he
        obtain ⟨x, hx, hxs, hxe⟩ := ih (oTail o) e he
        exact ⟨x, List.mem_cons_of_mem _ hx, hxs, hxe⟩

/-- Every failed address is a non-sender member of the snapshot. -/
theorem fanoutFailed_mem (sender : Addr) :
    ∀ (cs : List Addr) (o : List Bool) (a : Addr), a ∈ fanoutFailed sender o cs →
      a ∈ cs ∧ a ≠ sender := by
  intro cs
  induction cs with
  | nil => intro o a ha; simp [fanoutFailed] at ha
  | cons b rest ih =>
    intro o a ha
    by_cases hb : b = sender
    · simp only [fanoutFailed, hb, if_true] at ha
      obtain ⟨h1, h2⟩ := ih o a ha
      exact ⟨List.mem_cons_of_mem _ h1, h2⟩
    · simp only [fanoutFailed, hb, if_false] at ha
      by_cases hw : oHead o = true
      · simp only [hw, if_true] at ha
        obtain ⟨h1, h2⟩ := ih (oTail o) a ha
        exact ⟨List.mem_cons_of_mem _ h1, h2⟩
      · simp only [Bool.not_eq_true] at hw
        simp only [hw, Bool.false_eq_true, if_false, List.mem_cons] at ha
        rcases ha with rfl | ha
        · exact ⟨List.mem_cons_self _ _, hb⟩
        · obtain ⟨h1, h2⟩ := ih (oTail o) a ha
          exact ⟨List.mem_cons_of_mem _ h1, h2⟩

/-- Every non-sender member of the snapshot either failed or was written to. -/
theorem fanout_covers (sender : Addr) (m : ChatMessage) :
    ∀ (cs : List Addr) (o : List Bool) (a : Addr), a ∈ cs → a ≠ sender →
      a ∈ fanoutFailed sender o cs ∨ Event.wrote a m ∈ fanoutWrites sender m o cs := by
  intro cs
  induction cs with
  | nil => intro o a ha; simp at ha
  | cons b rest ih =>
    intro o a ha hs
    rcases List.mem_cons.mp ha with rfl | ha
    · simp only [fanoutFailed, fanoutWrites, hs, if_false]
      by_cases hw : oHead o = true
      · simp [hw]
      · simp only [Bool.not_eq_true] at hw
        simp [hw]
    · by_cases hb : b = sender
      · simp only [fanoutFailed, fanoutWrites, hb, if_true]
        exact ih o a ha hs
      · simp only [fanoutFailed, fanoutWrites, hb, if_false]
        by_cases hw : oHead o = true
        · simp only [hw, if_true, List.mem_cons]
          rcases ih (oTail o) a ha hs with h | h
          · exact Or.inl h
          · exact Or.inr (Or.inr h)
        · simp only [Bool.not_eq_true] at hw
          simp only [hw, Bool.false_eq_true, if_false, List.mem_cons]
          rcases ih (oTail o) a ha hs with h | h
          · exact Or.inl (Or.inr h)
          · exact Or.inr h

/-- In a duplicate-free snapshot, a failed address receives no write. -/
theorem fanout_failed_not_written (sender : Addr) (m : ChatMessage) :
    ∀ (cs : List Addr), cs.Nodup → ∀ (o : List Bool) (a : Addr),
      a ∈ fanoutFailed sender o cs → Event.wrote a m ∉ fanoutWrites sender m o cs := by
  intro cs
  induction cs with
  | nil => intro _ o a ha; simp [fanoutFailed] at ha
  | cons b rest ih =>
    intro hnd o a ha hw
    obtain ⟨hbn, hnd'⟩ := List.nodup_cons.mp hnd
    by_cases hb : b = sender
    · simp only [fanoutFailed, fanoutWrites, hb, if_true] at ha hw
      exact ih hnd' o a ha hw
    · simp only [fanoutFailed, fanoutWrites, hb, if_false] at ha hw
      by_cases hww : oHead o = true
      · simp only [hww, if_true, List.mem_cons] at ha hw
        rcases hw with hw | hw
        · have hab : a = b := by injection hw with h1 h2
          subst hab
          exact hbn (fanoutFailed_mem sender rest (oTail o) a ha).1
        · exact ih hnd' (oTail o) a ha hw
      · simp only [Bool.not_eq_true] at hww
        simp only [hww, Bool.false_eq_true, if_false, List.mem_cons] at ha hw
        rcases ha with rfl | ha
        · obtain ⟨x, hx, _, hxe⟩ := fanoutWrites_mem sender m rest (oTail o) _ hw
          have hax : a = x := by injection hxe with h1 h2
          exact hbn (hax ▸ hx)
        · exact ih hnd' (oTail o) a ha hw

theorem wroteTo_append (xs ys : List Event) (a : Addr) :
    wroteTo (xs ++ ys) a = wroteTo xs a ++ wroteTo ys a := by
  simp [wroteTo, List.filterMap_append]

/-- The fan-out never writes to the sender. -/
theorem wroteTo_fanoutWrites_sender (sender : Addr) (m : ChatMessage)
    (o : List Bool) (cs : List Addr) :
    wroteTo (fanoutWrites sender m o cs) sender = [] := by
  rw [wroteTo, List.filterMap_eq_nil_iff]
  intro e he
  obtain ⟨x, _, hxs, rfl⟩ := fanoutWrites_mem sender m cs o e he
  simp [hxs]

theorem wroteTo_map_unregistered (xs : List Addr) (a : Addr) :
    wroteTo (xs.map Event.unregistered) a = [] := by
  rw [wroteTo, List.filterMap_eq_nil_iff]
  intro e he
  obtain ⟨x, _, rfl⟩ := List.mem_map.mp he
  simp

/-- Exact shape of a broadcast from a healthy state, for any oracle: history
gains the message, the fan-out writes and the deferred pruning are decided by
the oracle, and the operation returns `Ok` — it is never fatal. -/
theorem broadcast_message_eq (st : ServerState) (sender : Addr) (m : ChatMessage)
    (h1 : st.clientsPoisoned = false) (h3 : st.historyPoisoned = false) :
    broadcast_message st sender m =
      .ok () { st with
        chat_history := st.chat_history ++ [m],
        clients :=
          if fanoutFailed sender st.oracle st.clients = [] then st.clients
          else st.clients.filter
            (fun a => !((fanoutFailed sender st.oracle st.clients).contains a)),
        events := st.events ++ Event.appended m ::
          (fanoutWrites sender m st.oracle st.clients ++
            (if fanoutFailed sender st.oracle st.clients = [] then []
             else (fanoutFailed sender st.oracle st.clients).map Event.unregistered)),
        oracle := fanoutRest sender st.oracle st.clients } := by
  rw [broadcast_message]
  simp only [h1, h3, Bool.false_eq_true, if_false]
  rw [fanoutLoop_eq]
  by_cases hf : fanoutFailed sender st.oracle st.clients = [] <;>
    simp [hf, List.isEmpty_iff, h1, List.append_assoc]

/-- A broadcast with an exhausted oracle delivers to every non-sender client
and prunes nobody. -/
theorem broadcast_message_oracle_nil (st : ServerState) (sender : Addr) (m : ChatMessage)
    (h : st.healthy) (ho : st.oracle = []) :
    broadcast_message st sender m =
      .ok () { st with
        chat_history := st.chat_history ++ [m],
        events := st.events ++ Event.appended m ::
          (st.clients.filter (fun a => a != sender)).map (fun a => Event.wrote a m) } := by
  rw [broadcast_message_eq st sender m h.1 h.2.2]
  obtain ⟨cs, us, hh, evs, o, p1, p2, p3⟩ := st
  simp only at ho
  subst ho
  simp [fanoutFailed_nil, fanoutWrites_nil, fanoutRest_nil]

/-- `broadcast_message_oracle_nil`, restated through `afterBroadcast`. -/
theorem broadcast_oracle_nil_after (st : ServerState) (sender : Addr)
    (m : ChatMessage) (h : st.healthy) (ho : st.oracle = []) :
    broadcast_message st sender m = .ok () (afterBroadcast st sender m) :=
  broadcast_message_oracle_nil st sender m h ho

/-- With an exhausted oracle the history replay writes every entry, in order. -/
theorem replayLoop_oracle_nil (self : Addr) :
    ∀ (ms : List ChatMessage) (st : ServerState), st.oracle = [] →
    replayLoop self st ms =
      .ok () { st with events := st.events ++ ms.map (fun m => Event.wrote self m) } := by
  intro ms
  induction ms with
  | nil => intro st ho; simp [replayLoop]
  | cons m rest ih =>
    intro st ho
    rw [replayLoop, send_message_to_client, popOracle_eq]
    simp only [ho, oHead, oTail, if_true]
    rw [ih _ (by simp)]
    simp [List.append_assoc]

/-- If the oracle makes the `i`-th replay write fail, the replay aborts there
with an `IoError`, having written exactly the first `i` entries. -/
theorem replayLoop_fails (self : Addr) :
    ∀ (i : Nat) (ms : List ChatMessage) (st : ServerState),
      st.oracle = List.replicate i true ++ [false] → i < ms.length →
      replayLoop self st ms =
        .err .IoError { st with
          events := st.events ++ (ms.take i).map (fun m => Event.wrote self m),
          oracle := [] } := by
  intro i
  induction i with
  | zero =>
    intro ms st ho hl
    cases ms with
    | nil => simp at hl
    | cons m rest =>
      rw [replayLoop, send_message_to_client, popOracle_eq]
      simp only [ho, List.replicate, List.nil_append, oHead, oTail,
        Bool.false_eq_true, if_false]
      simp
  | succ i ih =>
    intro ms st ho hl
    cases ms with
    | nil => simp at hl
    | cons m rest =>
      rw [replayLoop, send_message_to_client, popOracle_eq]
      simp only [ho, List.replicate, List.cons_append, oHead, oTail, if_true]
      rw [ih rest _ (by simp) (Nat.lt_of_succ_lt_succ hl)]
      simp [List.append_assoc]

/-- Exact shape of the disconnect routine from a healthy state with an
exhausted oracle: one leave-bodied envelope of the triggering kind is appended
to history and fanned out, the same envelope is echoed to the departing
connection, and the client leaves both maps. -/
theorem disconnect_oracle_nil (st : ServerState) (p : Addr) (u : String)
    (mt : ChatMessageType) (h : st.healthy) (ho : st.oracle = []) :
    handle_client_disconnect st p u mt =
      .ok () { st with
        clients := st.clients.filter (fun a => a != p),
        usernames := st.usernames.filter (fun q => q.1 != p),
        chat_history := st.chat_history ++ [⟨mt, some u, u ++ " has left the chat"⟩],
        events := st.events ++
          Event.appended ⟨mt, some u, u ++ " has left the chat"⟩ ::
          ((st.clients.filter (fun a => a != p)).map
              (fun a => Event.wrote a ⟨mt, some u, u ++ " has left the chat"⟩) ++
            [Event.wrote p ⟨mt, some u, u ++ " has left the chat"⟩,
             Event.unregistered p, Event.unnamed p]) } := by
  obtain ⟨h1, h2, h3⟩ := h
  rw [handle_client_disconnect, broadcast_system_message,
    broadcast_message_oracle_nil st p _ ⟨h1, h2, h3⟩ ho]
  simp only [send_message_to_client, popOracle_eq, ho, oHead, oTail, if_true]
  simp [h1, h2, List.append_assoc]

/-- `disconnect_oracle_nil`, restated through `afterDisconnect`. -/
theorem disconnect_oracle_nil_after (st : ServerState) (p : Addr) (u : String)
    (mt : ChatMessageType) (h : st.healthy) (ho : st.oracle = []) :
    handle_client_disconnect st p u mt = .ok () (afterDisconnect st p u mt) :=
  disconnect_oracle_nil st p u mt h ho

/-- A successful registration with an exhausted oracle. -/
theorem register_oracle_nil (st : ServerState) (p : Addr)
    (h1 : st.clientsPoisoned = false) (ho : st.oracle = []) :
    register_client st p = .ok () (afterRegister st p) := by
  obtain ⟨cs, us, hh, evs, o, a, b, c⟩ := st
  simp only at h1 ho
  subst h1 ho
  rfl

/-- A successful registration when the oracle grants the clone. -/
theorem register_client_pop (st : ServerState) (p : Addr)
    (h1 : st.clientsPoisoned = false) (hw : oHead st.oracle = true) :
    register_client st p = .ok () (afterRegisterPop st p) := by
  rw [register_client, popOracle_eq]
  simp only [h1, Bool.false_eq_true, if_false, hw, if_true]
  simp [afterRegisterPop, h1]

/-- A fully successful history replay. -/
theorem send_chat_history_nil_after (st : ServerState) (self : Addr)
    (h3 : st.historyPoisoned = false) (ho : st.oracle = []) :
    send_chat_history st self = .ok () (afterReplay st self) := by
  rw [send_chat_history]
  simp only [h3, Bool.false_eq_true, if_false]
  exact replayLoop_oracle_nil self st.chat_history st ho

/-- A fully successful join: name inserted, then the `Join` broadcast. -/
theorem broadcast_join_oracle_nil (st : ServerState) (p : Addr) (u : String)
    (h : st.healthy) (ho : st.oracle = []) :
    broadcast_join_message st p u = .ok () (afterJoin st p u) := by
  have hcond : ¬(st.usernamesPoisoned = true) := by simp [h.2.1]
  rw [broadcast_join_message, if_neg hcond]
  simp only [broadcast_system_message]
  rw [broadcast_oracle_nil_after
      { st with usernames := insertUsername st.usernames p u,
                events := st.events ++ [Event.setName p u] }
      p ⟨.Join, some u, u ++ " has joined the chat"⟩ ⟨h.1, h.2.1, h.2.2⟩ ho]
  rfl

/-- `cleanup_client` from a healthy state removes the session from both maps. -/
theorem cleanup_client_healthy (st : ServerState) (p : Addr)
    (h1 : st.clientsPoisoned = false) (h2 : st.usernamesPoisoned = false) :
    cleanup_client st p =
      { st with clients := st.clients.filter (fun a => a != p),
                usernames := st.usernames.filter (fun q => q.1 != p),
                events := st.events ++ [Event.unregistered p, Event.unnamed p] } := by
  rw [cleanup_client]
  simp [h1, h2, List.append_assoc]

theorem wroteTo_nil_eq (a : Addr) : wroteTo [] a = [] := rfl

theorem wroteTo_cons_appended (m : ChatMessage) (evs : List Event) (a : Addr) :
    wroteTo (Event.appended m :: evs) a = wroteTo evs a := rfl

theorem wroteTo_cons_wrote_self (a : Addr) (m : ChatMessage) (evs : List Event) :
    wroteTo (Event.wrote a m :: evs) a = m :: wroteTo evs a := by
  simp [wroteTo]

theorem wroteTo_cons_unregistered (b a : Addr) (evs : List Event) :
    wroteTo (Event.unregistered b :: evs) a = wroteTo evs a := rfl

theorem wroteTo_cons_unnamed (b a : Addr) (evs : List Event) :
    wroteTo (Event.unnamed b :: evs) a = wroteTo evs a := rfl

theorem wroteTo_cons_setName (b : Addr) (n : String) (a : Addr) (evs : List Event) :
    wroteTo (Event.setName b n :: evs) a = wroteTo evs a := rfl

theorem wroteTo_cons_registered (b a : Addr) (evs : List Event) :
    wroteTo (Event.registered b :: evs) a = wroteTo evs a := rfl

/-- One successful dispatch step of the read loop. -/
theorem handle_client_messages_cons_ok (p : Addr) (u : String) (st st' : ServerState)
    (chat_msg : ChatMessage) (rest : List ReadEvent)
    (h : handle_parsed_message st p u chat_msg = .ok () st') :
    handle_client_messages p u st (.line (some chat_msg) :: rest)
      = handle_client_messages p u st' rest := by
  simp only [handle_client_messages, h]

theorem handle_client_messages_nil (p : Addr) (u : String) (st : ServerState) :
    handle_client_messages p u st [] = .ok () st := rfl

theorem wroteTo_filter_map_ne (cs : List Addr) (p : Addr) (m : ChatMessage) :
    wroteTo ((cs.filter (fun a => a != p)).map (fun a => Event.wrote a m)) p = [] := by
  rw [wroteTo, List.filterMap_eq_nil_iff]
  intro e he
  obtain ⟨a, ha, rfl⟩ := List.mem_map.mp he
  have hne : a ≠ p := by simpa [bne_iff_ne] using (List.mem_filter.mp ha).2
  simp [hne]

/-- The src/server.rs fan-out never writes to the sender either, whatever the
oracle decides and wherever it panics. -/
theorem serverFanout_no_self (sender : Addr) (m : ChatMessage) :
    ∀ (cs : List Addr) (st : ServerState),
      wroteTo ((serverFanout sender m st cs).state.events) sender
        = wroteTo st.events sender := by
  intro cs
  induction cs with
  | nil => intro st; rfl
  | cons a rest ih =>
    intro st
    by_cases ha : a = sender
    · simp only [serverFanout, ha, if_true]
      exact ih st
    · simp only [serverFanout, ha, if_false, popOracle_eq]
      by_cases hw : oHead st.oracle = true
      · simp only [hw, if_true]
        rw [ih]
        simp [wroteTo_append, wroteTo, ha]
      · simp only [Bool.not_eq_true] at hw
        simp [hw, Outcome.state]

/-- C5 — confirmed.  (1) For every state, oracle and poisoning pattern, a
broadcast (in either revision of the engine) never writes the envelope to the
sender's own connection; (2) from a healthy state in which every delivery
succeeds, the envelope is written to exactly the clients-map entries whose
address differs from the sender — the exclusion is computed from the address
key alone, never from the display name (the usernames map is not consulted),
so it also holds when two sessions share a display name. -/
theorem C5_broadcast_excludes_sender (st : ServerState) (sender : Addr)
    (message : ChatMessage) :
    (wroteTo ((broadcast_message st sender message).state.events) sender
        = wroteTo st.events sender
      ∧ wroteTo ((server_broadcast_message st sender message).state.events) sender
        = wroteTo st.events sender)
    ∧ (st.healthy → st.oracle = [] →
        broadcast_message st sender message =
          .ok () { st with
            chat_history := st.chat_history ++ [message],
            events := st.events ++ Event.appended message ::
              (st.clients.filter (fun a => a != sender)).map
                (fun a => Event.wrote a message) }) := by
  refine ⟨⟨?_, ?_⟩, fun h ho => broadcast_message_oracle_nil st sender message h ho⟩
  · by_cases h3 : st.historyPoisoned = true
    · simp [broadcast_message, h3, Outcome.state]
    · simp only [Bool.not_eq_true] at h3
      by_cases h1 : st.clientsPoisoned = true
      · simp [broadcast_message, h3, h1, Outcome.state, wroteTo_append, wroteTo]
      · simp only [Bool.not_eq_true] at h1
        rw [broadcast_message_eq st sender message h1 h3]
        by_cases hf : fanoutFailed sender st.oracle st.clients = [] <;>
          simp [hf, Outcome.state, wroteTo_append, wroteTo_cons_appended,
            wroteTo_fanoutWrites_sender, wroteTo_map_unregistered, wroteTo_nil_eq]
  · rw [server_broadcast_message]
    by_cases h1 : st.clientsPoisoned = true
    · simp [h1, Outcome.state]
    · simp only [Bool.not_eq_true] at h1
      simp only [h1, Bool.false_eq_true, if_false]
      exact serverFanout_no_self sender message st.clients st

/-- Witness for C5 at a state where two distinct addresses share the display
name "dup": the broadcast from address 1 reaches exactly address 2. -/
theorem C5_witness :
    broadcast_message stSharedName 1 ⟨.Message, some "dup", "hi"⟩ =
      .ok () { stSharedName with
        chat_history := [⟨.Message, some "dup", "hi"⟩],
        events := [Event.appended ⟨.Message, some "dup", "hi"⟩,
                   Event.wrote 2 ⟨.Message, some "dup", "hi"⟩] } := by
  have h := (C5_broadcast_excludes_sender stSharedName 1
    ⟨.Message, some "dup", "hi"⟩).2 (by constructor <;> simp [stSharedName]) rfl
  exact h.trans rfl

/-- C6 — confirmed.  Handling `/list` from a state whose usernames lock is not
poisoned writes exactly one envelope, of kind `Command::List` with no sender,
back to the requesting connection only; its body is `"No users online."` when
the name snapshot is empty and otherwise `"Online users: "` followed by the
names joined by `", "`; the clients map, the usernames map and the history are
untouched (in particular nothing is broadcast and nothing is appended to the
History Log). -/
theorem C6_user_list (st : ServerState) (self : Addr)
    (h : st.usernamesPoisoned = false) (ho : st.oracle = []) :
    send_user_list st self =
      .ok () { st with events := st.events ++
        [Event.wrote self ⟨ChatMessageType.Command .List, none,
          if st.usernames.isEmpty then "No users online."
          else "Online users: " ++ String.intercalate ", " (st.usernames.map Prod.snd)⟩] } := by
  obtain ⟨cs, us, hh, evs, o, p1, p2, p3⟩ := st
  simp only at h ho
  subst h ho
  cases us <;>
    simp [send_user_list, send_message_to_client, popOracle_eq, oHead, oTail]

/-- Witness for C6: an empty registry answers `"No users online."`; the
registry holding "alice" then "bob" answers `"Online users: alice, bob"`. -/
theorem C6_witness :
    send_user_list base0 1 =
      .ok () { base0 with events :=
        [Event.wrote 1 ⟨ChatMessageType.Command .List, none, "No users online."⟩] }
    ∧ send_user_list stTwoNames 3 =
      .ok () { stTwoNames with events :=
        [Event.wrote 3 ⟨ChatMessageType.Command .List, none, "Online users: alice, bob"⟩] } :=
  ⟨(C6_user_list base0 1 rfl rfl).trans rfl,
   (C6_user_list stTwoNames 3 rfl rfl).trans rfl⟩

/-- C8 — confirmed.  The envelope broadcast for an inbound `Message` is built
from the session's registered username and the inbound content only: two
inbound envelopes differing solely in their username field are handled
identically, and (from a healthy all-success state) the broadcast envelope
carries `some u` for the session's own name `u`. -/
theorem C8_attribution (st : ServerState) (p : Addr) (u : String) (c : String)
    (n1 n2 : Option String) :
    handle_parsed_message st p u ⟨.Message, n1, c⟩
        = handle_parsed_message st p u ⟨.Message, n2, c⟩
    ∧ (st.healthy → st.oracle = [] →
        handle_parsed_message st p u ⟨.Message, n1, c⟩ =
          .ok () { st with
            chat_history := st.chat_history ++ [⟨.Message, some u, c⟩],
            events := st.events ++ Event.appended ⟨.Message, some u, c⟩ ::
              (st.clients.filter (fun a => a != p)).map
                (fun a => Event.wrote a ⟨.Message, some u, c⟩) }) :=
  ⟨rfl, fun h ho => broadcast_message_oracle_nil st p ⟨.Message, some u, c⟩ h ho⟩

/-- Witness for C8: the inbound sender field "mallory" does not appear; the
broadcast envelope is attributed to the session name "alice". -/
theorem C8_witness :
    handle_parsed_message stJoined 1 "alice" ⟨.Message, some "mallory", "hi"⟩
        = handle_parsed_message stJoined 1 "alice" ⟨.Message, none, "hi"⟩
    ∧ handle_parsed_message stJoined 1 "alice" ⟨.Message, some "mallory", "hi"⟩ =
        .ok () { stJoined with
          chat_history := stJoined.chat_history ++ [⟨.Message, some "alice", "hi"⟩],
          events := [Event.appended ⟨.Message, some "alice", "hi"⟩,
                     Event.wrote 2 ⟨.Message, some "alice", "hi"⟩] } :=
  ⟨(C8_attribution stJoined 1 "alice" "hi" (some "mallory") none).1,
   ((C8_attribution stJoined 1 "alice" "hi" (some "mallory") none).2
      (by constructor <;> simp [stJoined]) rfl).trans rfl⟩

/-- C10 — confirmed.  Processing a `Command::Quit` envelope does not end the
read loop: from a healthy all-success state, the loop handles the quit (one
leave-bodied envelope appended and echoed back, the session removed from both
maps) and then still processes a following well-formed `Message` envelope,
which is appended to history and broadcast under the session's name. -/
theorem C10_quit_keeps_reading (st : ServerState) (p : Addr) (u : String)
    (nq nm : Option String) (cq c : String)
    (h : st.healthy) (ho : st.oracle = []) :
    (handle_client_messages p u st
        [.line (some ⟨.Command .Quit, nq, cq⟩), .line (some ⟨.Message, nm, c⟩)]).isOk
        = true
    ∧ (handle_client_messages p u st
        [.line (some ⟨.Command .Quit, nq, cq⟩),
         .line (some ⟨.Message, nm, c⟩)]).state.chat_history =
        st.chat_history ++ [⟨.Command .Quit, some u, u ++ " has left the chat"⟩,
          ⟨.Message, some u, c⟩]
    ∧ wroteTo (handle_client_messages p u st
        [.line (some ⟨.Command .Quit, nq, cq⟩),
         .line (some ⟨.Message, nm, c⟩)]).state.events p =
        wroteTo st.events p ++ [⟨.Command .Quit, some u, u ++ " has left the chat"⟩] := by
  rw [handle_client_messages_cons_ok p u st _ ⟨.Command .Quit, nq, cq⟩ _
      (disconnect_oracle_nil_after st p u (ChatMessageType.Command .Quit) h ho),
    handle_client_messages_cons_ok p u _ _ ⟨.Message, nm, c⟩ _
      (broadcast_oracle_nil_after
        (afterDisconnect st p u (ChatMessageType.Command .Quit)) p
        ⟨.Message, some u, c⟩ ⟨h.1, h.2.1, h.2.2⟩ ho),
    handle_client_messages_nil]
  refine ⟨rfl, ?_, ?_⟩
  · simp [Outcome.state, afterBroadcast, afterDisconnect, List.append_assoc]
  · simp only [Outcome.state, afterBroadcast, afterDisconnect]
    simp only [wroteTo_append, wroteTo_cons_appended, wroteTo_filter_map_ne,
      wroteTo_cons_wrote_self, wroteTo_cons_unregistered, wroteTo_cons_unnamed,
      wroteTo_nil_eq]
    simp

/-- Witness for C10: after "alice" quits, her next message is still broadcast
to "bob" under the name "alice". -/
theorem C10_witness :
    (handle_client_messages 1 "alice" stJoined
        [.line (some ⟨.Command .Quit, some "alice", ""⟩),
         .line (some ⟨.Message, some "mallory", "still here"⟩)]).isOk = true
    ∧ (handle_client_messages 1 "alice" stJoined
        [.line (some ⟨.Command .Quit, some "alice", ""⟩),
         .line (some ⟨.Message, some "mallory", "still here"⟩)]).state.chat_history =
        stJoined.chat_history ++
          [⟨.Command .Quit, some "alice", "alice has left the chat"⟩,
           ⟨.Message, some "alice", "still here"⟩]
    ∧ wroteTo (handle_client_messages 1 "alice" stJoined
        [.line (some ⟨.Command .Quit, some "alice", ""⟩),
         .line (some ⟨.Message, some "mallory", "still here"⟩)]).state.events 1 =
        wroteTo stJoined.events 1 ++
          [⟨.Command .Quit, some "alice", "alice has left the chat"⟩] :=
  C10_quit_keeps_reading stJoined 1 "alice" (some "alice") (some "mallory") "" "still here"
    (by constructor <;> simp [stJoined]) rfl

/-- C1 — counterexample.  Three sessions "alice"(1), "bob"(2), "carol"(3);
"alice" broadcasts and the delivery to "bob" fails.  The broadcast completes
for "carol" and is not fatal, and "bob" is pruned from the clients map — but
"bob" is still present in the usernames map, so the next `/list`, issued by
"carol", still answers `"Online users: alice, bob, carol"`: the failed
recipient is NOT absent from the name snapshot used by `/list`, contrary to
the claim. -/
theorem C1_counterexample :
    (broadcast_message stFanout 1 ⟨.Message, some "alice", "hi"⟩).isOk = true
    ∧ (broadcast_message stFanout 1 ⟨.Message, some "alice", "hi"⟩).state.clients = [1, 3]
    ∧ (broadcast_message stFanout 1 ⟨.Message, some "alice", "hi"⟩).state.usernames
        = [(1, "alice"), (2, "bob"), (3, "carol")]
    ∧ wroteTo (broadcast_message stFanout 1 ⟨.Message, some "alice", "hi"⟩).state.events 3
        = [⟨.Message, some "alice", "hi"⟩]
    ∧ wroteTo (send_user_list
          (broadcast_message stFanout 1 ⟨.Message, some "alice", "hi"⟩).state 3).state.events 3
        = [⟨.Message, some "alice", "hi"⟩,
           ⟨.Command .List, none, "Online users: alice, bob, carol"⟩] :=
  ⟨rfl, rfl, rfl, rfl, rfl⟩

/-- C1 — amended.  From a healthy state, a broadcast always returns `Ok` (a
write failure is never fatal to the broadcaster); a failed recipient is
removed from the clients (writer) map after the fan-out pass — each surviving
non-sender client is exactly one that received the write — and the sender
itself is never pruned; but the usernames map is left untouched, so the failed
recipient's display name still appears in the snapshot used by the next
`/list`. -/
theorem C1_amended (st : ServerState) (sender : Addr) (m : ChatMessage)
    (h : st.healthy) (he : st.events = []) (hnd : st.clients.Nodup) :
    (broadcast_message st sender m).isOk = true
    ∧ (broadcast_message st sender m).state.usernames = st.usernames
    ∧ (sender ∈ st.clients → sender ∈ (broadcast_message st sender m).state.clients)
    ∧ ∀ a, a ∈ st.clients → a ≠ sender →
        (a ∈ (broadcast_message st sender m).state.clients ↔
          Event.wrote a m ∈ (broadcast_message st sender m).state.events) := by
  rw [broadcast_message_eq st sender m h.1 h.2.2]
  have hnotfail : sender ∉ fanoutFailed sender st.oracle st.clients := fun hmem =>
    (fanoutFailed_mem sender st.clients st.oracle sender hmem).2 rfl
  refine ⟨rfl, rfl, ?_, ?_⟩
  · intro hs
    simp only [Outcome.state]
    by_cases hf : fanoutFailed sender st.oracle st.clients = []
    · simp [hf, hs]
    · rw [if_neg hf]
      exact List.mem_filter.mpr ⟨hs, by simp [List.contains, List.elem_iff, hnotfail]⟩
  · intro a ha hs
    simp only [Outcome.state]
    have hcov := fanout_covers sender m st.clients st.oracle a ha hs
    have hnw := fanout_failed_not_written sender m st.clients hnd st.oracle a
    by_cases hf : fanoutFailed sender st.oracle st.clients = []
    · rcases hcov with hfail | hwr
      · rw [hf] at hfail; simp at hfail
      · simp [hf, ha, he, hwr]
    · rw [if_neg hf, if_neg hf]
      constructor
      · intro hmem
        have hnin : a ∉ fanoutFailed sender st.oracle st.clients := by
          have := (List.mem_filter.mp hmem).2
          simpa [List.contains, List.elem_iff] using this
        rcases hcov with hfail | hwr
        · exact absurd hfail hnin
        · simp [he, hwr]
      · intro hmem
        have hwr : Event.wrote a m ∈ fanoutWrites sender m st.oracle st.clients := by
          simp only [he, List.nil_append, List.mem_cons, List.mem_append] at hmem
          rcases hmem with hmem | hmem | hmem
          · exact absurd hmem (by simp)
          · exact hmem
          · exact absurd hmem (by simp)
        have hnin : a ∉ fanoutFailed sender st.oracle st.clients := fun hfa => hnw hfa hwr
        exact List.mem_filter.mpr ⟨ha, by simp [List.contains, List.elem_iff, hnin]⟩

/-- Witness for C1 at the `stFanout` scenario: the broadcast is `Ok`, the
usernames map is unchanged, and the surviving recipient 3 is exactly one that
got the write. -/
theorem C1_witness :
    (broadcast_message stFanout 1 ⟨.Message, some "alice", "hi"⟩).isOk = true
    ∧ (broadcast_message stFanout 1 ⟨.Message, some "alice", "hi"⟩).state.usernames
        = stFanout.usernames
    ∧ (3 ∈ (broadcast_message stFanout 1 ⟨.Message, some "alice", "hi"⟩).state.clients ↔
        Event.wrote 3 ⟨.Message, some "alice", "hi"⟩
          ∈ (broadcast_message stFanout 1 ⟨.Message, some "alice", "hi"⟩).state.events) :=
  ⟨(C1_amended stFanout 1 ⟨.Message, some "alice", "hi"⟩ ⟨rfl, rfl, rfl⟩ rfl
      (by decide)).1,
   (C1_amended stFanout 1 ⟨.Message, some "alice", "hi"⟩ ⟨rfl, rfl, rfl⟩ rfl
      (by decide)).2.1,
   (C1_amended stFanout 1 ⟨.Message, some "alice", "hi"⟩ ⟨rfl, rfl, rfl⟩ rfl
      (by decide)).2.2.2 3 (by decide) (by decide)⟩

/-- C2 — counterexample.  Session "alice" registers, then her connection dies
with a read error.  The run completes, yet the history holds only the old
message and her `Join`: no envelope with body `"alice has left the chat"` and
no `Leave`-kind envelope is ever built or broadcast, contradicting "exactly
one Leave envelope per session regardless of which path triggered
disconnection". -/
theorem C2_counterexample :
    (handle_client stJoined 1 (.line (some ⟨.Join, some "alice", ""⟩)) [.rerr]).isOk = true
    ∧ (handle_client stJoined 1
        (.line (some ⟨.Join, some "alice", ""⟩)) [.rerr]).state.chat_history =
        [⟨.Message, some "bob", "old"⟩, ⟨.Join, some "alice", "alice has joined the chat"⟩]
    ∧ (handle_client stJoined 1
        (.line (some ⟨.Join, some "alice", ""⟩)) [.rerr]).state.chat_history.map
          ChatMessage.message_type = [.Message, .Join] :=
  ⟨rfl, rfl, rfl⟩

/-- C2 — amended.  A leave-bodied envelope (`"<name> has left the chat"`, of
the same kind as the triggering inbound envelope — `Command::Quit` for
`/quit`) is built, appended to history, fanned out and echoed back to the
departing connection exactly when the session sends a `/quit` (or `Leave`)
envelope; a read error or an orderly remote close merely ends the loop with no
broadcast at all, and nothing limits the broadcast to once per session. -/
theorem C2_amended (st : ServerState) (p : Addr) (u : String) (nq : Option String)
    (cq : String) (rest : List ReadEvent) (h : st.healthy) (ho : st.oracle = []) :
    handle_parsed_message st p u ⟨.Command .Quit, nq, cq⟩ =
        .ok () (afterDisconnect st p u (ChatMessageType.Command .Quit))
    ∧ (afterDisconnect st p u (ChatMessageType.Command .Quit)).chat_history
        = st.chat_history ++
          [⟨.Command .Quit, some u, u ++ " has left the chat"⟩]
    ∧ wroteTo (afterDisconnect st p u (ChatMessageType.Command .Quit)).events p
        = wroteTo st.events p ++
          [⟨.Command .Quit, some u, u ++ " has left the chat"⟩]
    ∧ handle_client_messages p u st (.closed :: rest) = .ok () st
    ∧ handle_client_messages p u st (.rerr :: rest) = .ok () st := by
  refine ⟨disconnect_oracle_nil_after st p u _ h ho, rfl, ?_, rfl, rfl⟩
  simp only [afterDisconnect, wroteTo_append, wroteTo_cons_appended,
    wroteTo_filter_map_ne, wroteTo_cons_wrote_self, wroteTo_cons_unregistered,
    wroteTo_cons_unnamed, wroteTo_nil_eq]
  simp

/-- Witness for C2: "alice" (address 1) quits from `stJoined`; a closed read
produces no broadcast. -/
theorem C2_witness :
    handle_parsed_message stJoined 1 "alice" ⟨.Command .Quit, none, ""⟩ =
        .ok () (afterDisconnect stJoined 1 "alice" (ChatMessageType.Command .Quit))
    ∧ handle_client_messages 1 "alice" stJoined [.closed] = .ok () stJoined :=
  ⟨(C2_amended stJoined 1 "alice" none "" [] ⟨rfl, rfl, rfl⟩ rfl).1,
   (C2_amended stJoined 1 "alice" none "" [] ⟨rfl, rfl, rfl⟩ rfl).2.2.2.1⟩

/-- C3 — counterexample.  A first line carrying the EMPTY display name is
accepted: the session is registered, its (empty) name recorded, and a `Join`
envelope is broadcast and appended to history — the very things the claim
says can never happen for an empty name.  (No server-side length or emptiness
validation exists; the 1–20-character check lives only in the interactive
client.) -/
theorem C3_counterexample :
    (handle_client base0 1 (.line (some ⟨.Join, some "", "x"⟩)) [.closed]).isOk = true
    ∧ (handle_client base0 1 (.line (some ⟨.Join, some "", "x"⟩)) [.closed]).state.chat_history
        = [⟨.Join, some "", " has joined the chat"⟩]
    ∧ (handle_client base0 1 (.line (some ⟨.Join, some "", "x"⟩)) [.closed]).state.events
        = [Event.registered 1, Event.setName 1 "",
           Event.appended ⟨.Join, some "", " has joined the chat"⟩,
           Event.unregistered 1, Event.unnamed 1] :=
  ⟨rfl, rfl, rfl⟩

/-- C3 — amended.  The handshake accepts any username string the first
envelope carries — including the empty string and names over 20 characters —
with no validation; it aborts only when the first read fails, the line is
unparseable, or the username field is absent, and on such an abort nothing is
broadcast and no name is recorded, but the registry entry created at accept
time is NOT removed: the dead session's writer stays in the clients map. -/
theorem C3_amended (st : ServerState) (p : Addr) (t : ChatMessageType)
    (u c : String) (inputs : List ReadEvent) (h : st.healthy) (ho : st.oracle = []) :
    get_client_username (.line (some ⟨t, some u, c⟩)) p = .ok u
    ∧ handle_client st p (.line none) inputs =
        .err (.InvalidMessage (toString p)) (afterRegister st p) := by
  obtain ⟨cs, us, hh, evs, o, p1, p2, p3⟩ := st
  obtain ⟨h1, h2, h3⟩ := h
  simp only at h1 h2 h3 ho
  subst h1 h2 h3 ho
  exact ⟨rfl, rfl⟩

/-- Witness for C3: the empty username is returned as valid; an unparseable
first line aborts with `InvalidMessage` while address 7 stays registered. -/
theorem C3_witness :
    get_client_username (.line (some ⟨.Join, some "", "x"⟩)) 7 = .ok ""
    ∧ handle_client base0 7 (.line none) [] =
        .err (.InvalidMessage (toString 7)) (afterRegister base0 7) :=
  C3_amended base0 7 .Join "" "x" [] ⟨rfl, rfl, rfl⟩ rfl

/-- C4 — counterexample.  "alice" joins while the history holds one envelope.
The event trace of the run is explicit: the replay write to the joining
connection (index 1) happens BEFORE the name is recorded by `set_name`
(index 2) — the handler does not "first record the display name via set_name,
then replay"; it replays first (`send_chat_history` is called before
`broadcast_join_message`, which performs the insert). -/
theorem C4_counterexample :
    (handle_client stJoined 1 (.line (some ⟨.Join, some "alice", ""⟩)) [.closed]).state.events
        = [Event.registered 1, Event.wrote 1 ⟨.Message, some "bob", "old"⟩,
           Event.setName 1 "alice",
           Event.appended ⟨.Join, some "alice", "alice has joined the chat"⟩,
           Event.wrote 2 ⟨.Join, some "alice", "alice has joined the chat"⟩,
           Event.unregistered 1, Event.unnamed 1]
    ∧ (handle_client stJoined 1
        (.line (some ⟨.Join, some "alice", ""⟩)) [.closed]).state.events.get? 1
        = some (Event.wrote 1 ⟨.Message, some "bob", "old"⟩)
    ∧ (handle_client stJoined 1
        (.line (some ⟨.Join, some "alice", ""⟩)) [.closed]).state.events.get? 2
        = some (Event.setName 1 "alice") :=
  ⟨rfl, rfl, rfl⟩

/-- C4 — amended.  On a successful handshake the handler FIRST replays the
history log to the new connection in full — exactly the envelopes present at
registration, in order — THEN records the display name via `set_name`, and
only then broadcasts (and appends to history) the `Join` envelope naming the
session; only the claimed position of `set_name` (before the replay) is
wrong. -/
theorem C4_amended (st : ServerState) (p : Addr) (jm : ChatMessage) (u : String)
    (h : st.healthy) (ho : st.oracle = []) (hu : jm.username = some u) :
    (handle_client st p (.line (some jm)) []).isOk = true
    ∧ (handle_client st p (.line (some jm)) []).state.chat_history =
        st.chat_history ++ [⟨.Join, some u, u ++ " has joined the chat"⟩]
    ∧ (handle_client st p (.line (some jm)) []).state.events = st.events ++
        Event.registered p ::
        (st.chat_history.map (fun m => Event.wrote p m) ++
          Event.setName p u ::
          Event.appended ⟨.Join, some u, u ++ " has joined the chat"⟩ ::
          (((insertClient st.clients p).filter (fun a => a != p)).map
              (fun a => Event.wrote a ⟨.Join, some u, u ++ " has joined the chat"⟩) ++
            [Event.unregistered p, Event.unnamed p])) := by
  have e : handle_client st p (.line (some jm)) [] =
      .ok () (cleanup_client (afterJoin (afterReplay (afterRegister st p) p) p u) p) := by
    rw [handle_client, register_oracle_nil st p h.1 ho]
    dsimp only
    simp only [get_client_username]
    rw [hu]
    dsimp only
    rw [send_chat_history_nil_after (afterRegister st p) p h.2.2 ho]
    dsimp only
    rw [broadcast_join_oracle_nil (afterReplay (afterRegister st p) p) p u
        ⟨h.1, h.2.1, h.2.2⟩ ho]
    dsimp only
    rw [handle_client_messages_nil]
  rw [e, cleanup_client_healthy (afterJoin (afterReplay (afterRegister st p) p) p u) p
      h.1 h.2.1]
  refine ⟨rfl, ?_, ?_⟩ <;>
    simp [Outcome.state, afterJoin, afterBroadcast, afterReplay, afterRegister,
      List.append_assoc]

/-- Witness for C4: the full handshake of "alice" against `stJoined`. -/
theorem C4_witness :
    (handle_client stJoined 1 (.line (some ⟨.Join, some "alice", "x"⟩)) []).isOk = true
    ∧ (handle_client stJoined 1
        (.line (some ⟨.Join, some "alice", "x"⟩)) []).state.chat_history =
        stJoined.chat_history ++ [⟨.Join, some "alice", "alice has joined the chat"⟩]
    ∧ (handle_client stJoined 1
        (.line (some ⟨.Join, some "alice", "x"⟩)) []).state.events =
        stJoined.events ++ Event.registered 1 ::
        (stJoined.chat_history.map (fun m => Event.wrote 1 m) ++
          Event.setName 1 "alice" ::
          Event.appended ⟨.Join, some "alice", "alice has joined the chat"⟩ ::
          (((insertClient stJoined.clients 1).filter (fun a => a != 1)).map
              (fun a => Event.wrote a ⟨.Join, some "alice", "alice has joined the chat"⟩) ++
            [Event.unregistered 1, Event.unnamed 1])) :=
  C4_amended stJoined 1 ⟨.Join, some "alice", "x"⟩ "alice" ⟨rfl, rfl, rfl⟩ rfl rfl

/-- C7 — counterexample.  With two history entries, the write of entry 2 to
the joining connection fails.  The replay aborts there and the handshake
aborts with an `IoError` — but the joining session REMAINS registered: its
address 1 is still in the clients map of the final state (the error return
skips both the disconnect routine and `cleanup_client`). -/
theorem C7_counterexample :
    handle_client stReplayFail 1 (.line (some ⟨.Join, some "alice", ""⟩)) [.closed]
        = .err .IoError ⟨[2, 1], [(2, "bob")],
            [⟨.Message, some "bob", "m1"⟩, ⟨.Message, some "bob", "m2"⟩],
            [Event.registered 1, Event.wrote 1 ⟨.Message, some "bob", "m1"⟩], [],
            false, false, false⟩
    ∧ 1 ∈ (handle_client stReplayFail 1
        (.line (some ⟨.Join, some "alice", ""⟩)) [.closed]).state.clients :=
  ⟨rfl, by decide⟩

/-- C7 — amended.  If the oracle fails the `i`-th replay write, the replay
aborts at that entry (exactly the first `i` entries were written) and the
failure surfaces to the handler as an `IoError` that aborts the handshake —
no name is recorded and no `Join` is broadcast — but the session's accept-time
entry in the clients map is NOT removed: it stays registered. -/
theorem C7_amended (st : ServerState) (p : Addr) (jm : ChatMessage) (u : String)
    (i : Nat) (inputs : List ReadEvent) (h : st.healthy) (hu : jm.username = some u)
    (ho : st.oracle = true :: (List.replicate i true ++ [false]))
    (hi : i < st.chat_history.length) :
    handle_client st p (.line (some jm)) inputs =
      .err .IoError { st with
        clients := insertClient st.clients p,
        events := st.events ++ Event.registered p ::
          (st.chat_history.take i).map (fun m => Event.wrote p m),
        oracle := [] } := by
  rw [handle_client, register_client_pop st p h.1 (by rw [ho]; rfl)]
  dsimp only
  simp only [get_client_username]
  rw [hu]
  dsimp only
  rw [send_chat_history, if_neg (show ¬((afterRegisterPop st p).historyPoisoned = true)
    by simp [afterRegisterPop, h.2.2])]
  have hch : (afterRegisterPop st p).chat_history = st.chat_history := rfl
  rw [hch, replayLoop_fails p i st.chat_history (afterRegisterPop st p)
      (by simp [afterRegisterPop, ho, oTail]) hi]
  dsimp only
  simp [afterRegisterPop, List.append_assoc]

/-- Witness for C7 at `stReplayFail` (two history entries, the second replay
write fails). -/
theorem C7_witness :
    handle_client stReplayFail 1 (.line (some ⟨.Join, some "alice", ""⟩)) [.closed] =
      .err .IoError { stReplayFail with
        clients := insertClient stReplayFail.clients 1,
        events := stReplayFail.events ++ Event.registered 1 ::
          (stReplayFail.chat_history.take 1).map (fun m => Event.wrote 1 m),
        oracle := [] } :=
  C7_amended stReplayFail 1 ⟨.Join, some "alice", ""⟩ "alice" 1 [.closed]
    ⟨rfl, rfl, rfl⟩ rfl rfl (by decide)

/-- C9 — counterexample.  With the history lock poisoned, `broadcast_message`
(whose lock acquisitions use `unwrap()`) PANICS instead of failing with the
`PoisonedLock` error kind, contradicting "the operation fails with the
explicit PoisonedLock error kind ... rather than panicking". -/
theorem C9_counterexample :
    broadcast_message stPoisonedHistory 1 ⟨.Message, some "alice", "hi"⟩
        = .panicked stPoisonedHistory
    ∧ broadcast_message stPoisonedHistory 1 ⟨.Message, some "alice", "hi"⟩
        ≠ .err .PoisonedLock stPoisonedHistory :=
  ⟨rfl, by decide⟩

/-- C9 — amended.  `PoisonedLock` is an error kind distinct from the transport
(`IoError`) and parse (`JsonError`) kinds, and every lock acquisition taken
with `?` — registration, history replay, the `/list` snapshot, the name
insertion of the join, the removals of the disconnect routine — surfaces a
poisoned lock as that error; but the acquisitions inside `broadcast_message`
use `unwrap()` and therefore panic on poisoning, so every operation that
broadcasts (including the disconnect routine, which broadcasts first) panics
rather than returning `PoisonedLock` when the history lock is poisoned. -/
theorem C9_amended (st : ServerState) (p : Addr) (u : String) (m : ChatMessage)
    (mt : ChatMessageType) :
    (ChatServerError.PoisonedLock ≠ ChatServerError.IoError
      ∧ ChatServerError.PoisonedLock ≠ ChatServerError.JsonError)
    ∧ (st.clientsPoisoned = true → register_client st p = .err .PoisonedLock st)
    ∧ (st.historyPoisoned = true → send_chat_history st p = .err .PoisonedLock st)
    ∧ (st.usernamesPoisoned = true → send_user_list st p = .err .PoisonedLock st)
    ∧ (st.usernamesPoisoned = true →
        broadcast_join_message st p u = .err .PoisonedLock st)
    ∧ (st.historyPoisoned = true → broadcast_message st p m = .panicked st)
    ∧ (st.historyPoisoned = true →
        handle_client_disconnect st p u mt = .panicked st) := by
  refine ⟨⟨by decide, by decide⟩, ?_, ?_, ?_, ?_, ?_, ?_⟩ <;> intro hp <;>
    simp [register_client, send_chat_history, send_user_list, broadcast_join_message,
      broadcast_system_message, broadcast_message, handle_client_disconnect, hp]

/-- Witness for C9 at the fully poisoned state. -/
theorem C9_witness :
    register_client stPoisoned 1 = .err .PoisonedLock stPoisoned
    ∧ send_user_list stPoisoned 1 = .err .PoisonedLock stPoisoned
    ∧ broadcast_message stPoisoned 1 ⟨.Message, some "alice", "hi"⟩
        = .panicked stPoisoned :=
  ⟨(C9_amended stPoisoned 1 "alice" ⟨.Message, some "alice", "hi"⟩ .Leave).2.1 rfl,
   (C9_amended stPoisoned 1 "alice" ⟨.Message, some "alice", "hi"⟩ .Leave).2.2.2.1 rfl,
   (C9_amended stPoisoned 1 "alice" ⟨.Message, some "alice", "hi"⟩ .Leave).2.2.2.2.2.1 rfl⟩

end Chat
